import Mathlib

/-!
Shallow embedding of `tools/cosmovisor/scanner.go`: the upgrade-plan file
watcher.  File-system, subprocess and HTTP effects are modelled by an explicit
environment (`FileEnv`) describing what the outside world would answer on this
poll, and by an effect record (`Effects`) describing which external actions the
decision routine performed.  A Go `panic` is modelled by `Except.error`.
Machine `int64` heights are modelled as `Int` (comparisons in the watcher never
overflow); timestamps are abstract `Int` instants where `time.After` is `<`.
-/

deriving instance DecidableEq for Except

namespace Cosmovisor

/-- Modelled from the spec: the upgrade plan payload `upgradetypes.Plan`
(owned by the external `x/upgrade/types` module, not part of the slice):
`{ name: string, height: int64, info: string }`. -/
structure Plan where
  name : String
  info : String
  height : Int
  deriving DecidableEq, Repr

/-- Mutable state of `fileWatcher` (scanner.go lines 22-35), restricted to the
fields the decision routine reads or writes.  `filename`, `interval`,
`currentBin`, `cancel` and `ticker` only select which external answers arrive
and are absorbed into `FileEnv`. -/
structure WatcherState where
  currentInfo : Plan
  lastModTime : Int
  needsUpdate : Bool
  initialized : Bool
  disableRecase : Bool
  deriving DecidableEq, Repr

/-- `callbackInfo` (scanner.go lines 37-43): the JSON payload POSTed to the
two callback endpoints. -/
structure callbackInfo where
  name : String
  version : String
  repo : String
  info : String
  height : Int
  deriving DecidableEq, Repr

/-- Outcome of the one `exec.Command(fw.currentBin, "status")` probe of
`checkHeight` (scanner.go lines 237-266): test-mode bypass, subprocess
failure, JSON unmarshal failure, or a decoded response carrying the
`SyncInfo.latest_block_height` string (a missing field decodes to `""`). -/
inductive ProbeOutcome
  | testMode
  | execError
  | jsonError
  | output (latestBlockHeight : String)
  deriving DecidableEq, Repr

/-- What the outside world answers during one call of `CheckUpdate`:
`stat` is `none` when the watched file does not exist, otherwise its
modification time; `fileLen` and `decoded` describe `os.ReadFile` +
`json.Unmarshal` of the file; `binaries` is the result of the external
`plan.ParseInfo` on the plan's info payload (`none` when it errors, otherwise
the list of binary-download URLs in iteration order); `probe` is the height
probe's outcome. -/
structure FileEnv where
  stat : Option Int
  fileLen : Nat
  decoded : Option Plan
  binaries : Option (List String)
  probe : ProbeOutcome
  deriving DecidableEq, Repr

/-- Which external actions one `CheckUpdate` call performed: file stat, file
read, version/repo extraction, height probe, and the payloads handed to the
two callback dispatchers (`none` when the callback did not fire). -/
structure Effects where
  statted : Bool
  readFile : Bool
  extracted : Bool
  probed : Bool
  detected : Option callbackInfo
  heightReached : Option callbackInfo
  deriving DecidableEq, Repr

/-- No external action at all. -/
def noEffects : Effects :=
  { statted := false, readFile := false, extracted := false, probed := false,
    detected := none, heightReached := none }

/-- Effects of a call that only ran `os.Stat`. -/
def statOnly : Effects :=
  { noEffects with statted := true }

/-- Lower-casing character by character (`strings.ToLower`, restricted to the
simple case folding `Char.toLower` performs; ASCII-faithful, which is all the
watcher compares). -/
def toLowerStr (s : String) : String :=
  String.mk (s.data.map Char.toLower)

/-- `strings.EqualFold`, restricted to the same simple case folding. -/
def EqualFold (a b : String) : Bool :=
  toLowerStr a == toLowerStr b

/-- Modelled from the spec: `upgradetypes.Plan.ValidateBasic` (external
validation rule the Reader must call): name non-empty, height strictly
positive. -/
def planValidateBasic (p : Plan) : Bool :=
  p.name ≠ "" && p.height > 0

/-- `parseUpgradeInfoFile` (scanner.go lines 268-294) over the decoded view of
the file: empty file is an error, unmarshal failure is an error, validation
failure is an error; on success the name is lower-cased unless recasing is
disabled. -/
def parseUpgradeInfoFile (fileLen : Nat) (decoded : Option Plan)
    (disableRecase : Bool) : Except String Plan :=
  if fileLen = 0 then .error "empty upgrade-info.json"
  else
    match decoded with
    | none => .error "json unmarshal error"
    | some upgradePlan =>
      if planValidateBasic upgradePlan = false then
        .error "invalid upgrade-info.json content"
      else if disableRecase = false then
        .ok { upgradePlan with name := toLowerStr upgradePlan.name }
      else .ok upgradePlan

/-- Consume one or more decimal digits, returning the rest of the input, or
`none` when the input does not start with a digit. -/
def matchDigits1 : List Char → Option (List Char)
  | [] => none
  | c :: rest =>
    if c.isDigit then some (rest.dropWhile Char.isDigit) else none

/-- Consume a literal dot. -/
def matchDot : List Char → Option (List Char)
  | c :: rest => if c = '.' then some rest else none
  | [] => none

/-- The inline regexp match of scanner.go line 224: whether the string starts
with `[vV]` then `digits.digits.digits` (any suffix accepted; since a dot is
never a digit, maximal-munch digit consumption is equivalent to the regex's
greedy `\d+`). -/
def versionRegexMatch (s : String) : Bool :=
  match s.data with
  | [] => false
  | c :: rest =>
    if c = 'v' ∨ c = 'V' then
      match matchDigits1 rest with
      | none => false
      | some r1 =>
        match matchDot r1 with
        | none => false
        | some r2 =>
          match matchDigits1 r2 with
          | none => false
          | some r3 =>
            match matchDot r3 with
            | none => false
            | some r4 => (matchDigits1 r4).isSome
    else false

/-- Loop body of `getVersionAndRepoFromUrl` (scanner.go lines 214-229):
walks the slash-separated segments carrying the current index, the index of
the last `github.com` segment (`-1` when none seen), and the accumulated
`repo` string; stops at the first segment matching the version regex. -/
def urlLoop : List String → Nat → Int → String → Int × String × String
  | [], _, githubIdx, repo => (githubIdx, repo, "")
  | str :: rest, idx, githubIdx, repo =>
    let githubIdx := if EqualFold str "github.com" then (idx : Int) else githubIdx
    let repo :=
      if githubIdx < 0 ∨ (idx : Int) ≤ githubIdx + 2 then
        (if idx > 0 then repo ++ "/" else repo) ++ str
      else repo
    if versionRegexMatch str then (githubIdx, repo, str)
    else urlLoop rest (idx + 1) githubIdx repo

/-- `strings.Split(url, "/")`: split on the slash character. -/
def goSplitSlash (url : String) : List String :=
  (url.data.splitOn '/').map fun cs => String.mk cs

/-- `getVersionAndRepoFromUrl` (scanner.go lines 208-234).  Returns
`(repo, version)`; `repo` is blanked when no `github.com` segment was seen. -/
def getVersionAndRepoFromUrl (url : String) : String × String :=
  let res := urlLoop (goSplitSlash url) 0 (-1) ""
  ((if res.1 < 0 then "" else res.2.1), res.2.2)

/-- The URL scan of `CheckUpdate` (scanner.go lines 139-144): run the
extractor on each binary URL in order, stopping at the first non-empty
version; the accumulators keep the latest extractor results, so a scan that
never finds a version ends with the last URL's `repo`. -/
def extractVersionRepo : List String → String → String → String × String
  | [], repo, version => (repo, version)
  | url :: rest, _, _ =>
    let rv := getVersionAndRepoFromUrl url
    if rv.2 ≠ "" then (rv.1, rv.2) else extractVersionRepo rest rv.1 rv.2

/-- The `repo`/`version` pair `CheckUpdate` derives from the plan's info
payload (scanner.go lines 135-145): empty when `plan.ParseInfo` errored. -/
def extractFromBinaries : Option (List String) → String × String
  | none => ("", "")
  | some urls => extractVersionRepo urls "" ""

/-- Maximum value of a Go `int64`. -/
def int64Max : Int := 2 ^ 63 - 1

/-- Minimum value of a Go `int64`. -/
def int64Min : Int := -(2 ^ 63)

/-- Decimal digit string to a number: `none` unless non-empty and all ASCII
digits. -/
def parseDecimal : List Char → Option Nat
  | [] => none
  | cs =>
    if cs.all Char.isDigit then
      some (cs.foldl (fun a c => a * 10 + (c.toNat - 48)) 0)
    else none

/-- Go `strconv.ParseInt(s, 10, 64)` as `(value, hasError)`: optional sign
then decimal digits; a syntax error yields `(0, true)`; an out-of-range value
yields the clamped bound together with an error. -/
def goParseInt64 (s : String) : Int × Bool :=
  let signed : Bool × List Char :=
    match s.data with
    | '-' :: rest => (true, rest)
    | '+' :: rest => (false, rest)
    | cs => (false, cs)
  match parseDecimal signed.2 with
  | none => (0, true)
  | some n =>
    let v : Int := if signed.1 then -(n : Int) else (n : Int)
    if v > int64Max then (int64Max, true)
    else if v < int64Min then (int64Min, true)
    else (v, false)

/-- `checkHeight` (scanner.go lines 237-266) as `(height, hasError)`:
test mode bypasses with height 0 and no error; subprocess and JSON failures
yield `(0, error)`; an empty/missing `latest_block_height` field yields
`(0, error)`; otherwise the string is parsed as a decimal `int64`. -/
def checkHeight : ProbeOutcome → Int × Bool
  | .testMode => (0, false)
  | .execError => (0, true)
  | .jsonError => (0, true)
  | .output s => if s = "" then (0, true) else goParseInt64 s

/-- Result of one `CheckUpdate` call: the returned `Bool`, the watcher state
after the call, and the external actions performed. -/
structure CheckResult where
  ret : Bool
  state : WatcherState
  effects : Effects
  deriving DecidableEq, Repr

/-- All effects of a full read path (stat, read, extraction, probe, and the
detected callback with payload `cb`); the height-reached callback fired iff
`hr`. -/
def readEffects (cb : callbackInfo) (hr : Bool) : Effects :=
  { statted := true, readFile := true, extracted := true, probed := true,
    detected := some cb, heightReached := if hr then some cb else none }

/-- `fileWatcher.CheckUpdate` (scanner.go lines 114-192).  `Except.error`
models the `panic` on a parse failure.  Steps, in source order: short-circuit
on `needsUpdate`; stat (absent file is not-ready); modification-time
freshness; parse (failure panics); version/repo extraction and the
unconditional detected callback; height gate; first-poll initialization and
restart heuristic; strictly-greater-height adoption; otherwise not-ready. -/
def CheckUpdate (fw : WatcherState) (env : FileEnv) (currentUpgrade : Plan) :
    Except String CheckResult :=
  if fw.needsUpdate then .ok ⟨true, fw, noEffects⟩
  else
    match env.stat with
    | none => .ok ⟨false, fw, statOnly⟩
    | some modTime =>
      if ¬ fw.lastModTime < modTime then .ok ⟨false, fw, statOnly⟩
      else
        match parseUpgradeInfoFile env.fileLen env.decoded fw.disableRecase with
        | .error e => .error ("failed to parse upgrade info file: " ++ e)
        | .ok info =>
          let rv := extractFromBinaries env.binaries
          let cb : callbackInfo :=
            { name := info.name, version := rv.2, repo := rv.1,
              info := info.info, height := info.height }
          let currentHeight := (checkHeight env.probe).1
          if currentHeight ≠ 0 ∧ currentHeight < info.height then
            .ok ⟨false, fw, readEffects cb false⟩
          else
            let fw1 :=
              if fw.initialized = false then
                { fw with initialized := true, currentInfo := info,
                          lastModTime := modTime }
              else fw
            if fw.initialized = false ∧
                EqualFold currentUpgrade.name info.name = false then
              .ok ⟨true, { fw1 with needsUpdate := true }, readEffects cb true⟩
            else if info.height > fw1.currentInfo.height then
              .ok ⟨true,
                   { fw1 with currentInfo := info, lastModTime := modTime,
                              needsUpdate := true },
                   readEffects cb true⟩
            else .ok ⟨false, fw1, readEffects cb false⟩

/-- Whether an outcome is the modelled hard failure (`panic` / `error`). -/
def isPanic {α : Type} : Except String α → Bool
  | .error _ => true
  | .ok _ => false

/-- The returned boolean of a non-panicking call. -/
def checkRet : Except String CheckResult → Option Bool
  | .error _ => none
  | .ok r => some r.ret

/-- The watcher state left behind by a non-panicking call. -/
def checkState : Except String CheckResult → Option WatcherState
  | .error _ => none
  | .ok r => some r.state

/-- The state mutation `fileWatcher.MonitorUpdate` performs when (re-)arming
the polling loop (scanner.go lines 87-91): the ticker is reset, a fresh
cancellation channel is installed, and `needsUpdate` is reset to `false`.
Only the state field is modelled; the goroutine itself repeatedly calls
`CheckUpdate` until it reports ready. -/
def MonitorUpdate (fw : WatcherState) : WatcherState :=
  { fw with needsUpdate := false }

/-! ## Helper lemmas -/

/-- Every bad-input condition of the Reader (empty file, unmarshal failure,
empty name, non-positive height) makes `parseUpgradeInfoFile` fail. -/
lemma parseUpgradeInfoFile_error_of_bad (fl : Nat) (dec : Option Plan) (dr : Bool)
    (hbad : fl = 0 ∨ dec = none ∨
      ∃ p, dec = some p ∧ (p.name = "" ∨ p.height ≤ 0)) :
    ∃ e, parseUpgradeInfoFile fl dec dr = .error e := by
  rcases hbad with h0 | hnone | ⟨p, hp, hbadp⟩
  · exact ⟨"empty upgrade-info.json", by simp [parseUpgradeInfoFile, h0]⟩
  · by_cases h0 : fl = 0
    · exact ⟨"empty upgrade-info.json", by simp [parseUpgradeInfoFile, h0]⟩
    · exact ⟨"json unmarshal error", by simp [parseUpgradeInfoFile, h0, hnone]⟩
  · by_cases h0 : fl = 0
    · exact ⟨"empty upgrade-info.json", by simp [parseUpgradeInfoFile, h0]⟩
    · have hval : planValidateBasic p = false := by
        rcases hbadp with hn | hh
        · simp [planValidateBasic, hn]
        · simp [planValidateBasic, hh, not_lt.mpr hh]
      exact ⟨"invalid upgrade-info.json content",
        by simp [parseUpgradeInfoFile, h0, hp, hval]⟩

/-- When no segment folds to `github.com`, the extractor loop never changes
its `githubIdx` accumulator. -/
lemma urlLoop_githubIdx_const (segs : List String) :
    ∀ idx gi repo, (∀ s ∈ segs, EqualFold s "github.com" = false) →
      (urlLoop segs idx gi repo).1 = gi := by
  induction segs with
  | nil => intro idx gi repo _; simp [urlLoop]
  | cons s rest ih =>
    intro idx gi repo h
    have hs : EqualFold s "github.com" = false := h s (List.mem_cons_self s rest)
    by_cases hv : versionRegexMatch s
    · simp [urlLoop, hs, hv]
    · simp [urlLoop, hs, hv]
      exact ih (idx + 1) gi _ fun x hx => h x (List.mem_cons_of_mem s hx)

/-- The version component computed by the extractor loop is the first
segment matching the version regex (empty when there is none). -/
lemma urlLoop_version_eq_find (segs : List String) :
    ∀ idx gi repo, (urlLoop segs idx gi repo).2.2 =
      ((segs.find? versionRegexMatch).getD "") := by
  induction segs with
  | nil => intro idx gi repo; simp [urlLoop]
  | cons s rest ih =>
    intro idx gi repo
    by_cases hv : versionRegexMatch s
    · simp [urlLoop, hv, List.find?_cons_of_pos _ hv]
    · have hfind : List.find? versionRegexMatch (s :: rest) =
          List.find? versionRegexMatch rest :=
        List.find?_cons_of_neg rest (by simp [hv])
      rw [hfind]
      simp [urlLoop, hv]
      exact ih (idx + 1) _ _

/-! ## Theorems -/

/-- Claim C3: with `needsUpdate` already true, `CheckUpdate` reports ready
immediately, leaves the state untouched (hence is idempotent), and performs
no stat, read, extraction, probe or callback dispatch. -/
theorem C3_short_circuit (ci : Plan) (lmt : Int) (ini dr : Bool)
    (env : FileEnv) (cu : Plan) :
    CheckUpdate ⟨ci, lmt, true, ini, dr⟩ env cu =
      .ok ⟨true, ⟨ci, lmt, true, ini, dr⟩, noEffects⟩ := by
  simp [CheckUpdate]

/-- Claim C4 counterexample: a watcher state with `needsUpdate = true` is
re-armed by `MonitorUpdate` and comes out with `needsUpdate = false`, so
re-arming does not leave `needsUpdate` true as the claim states. -/
theorem C4_counterexample :
    WatcherState.needsUpdate ⟨⟨"a", "", 1⟩, 0, true, true, false⟩ = true ∧
    (MonitorUpdate ⟨⟨"a", "", 1⟩, 0, true, true, false⟩).needsUpdate = false := by
  constructor
  · rfl
  · rfl

/-- Claim C4 amended: `needsUpdate = true` is sticky across `CheckUpdate`
(the call reports ready immediately and leaves it true), but `MonitorUpdate`
resets `needsUpdate` to `false` when re-arming, so the first tick after
re-arming runs the full check instead of short-circuiting. -/
theorem C4_amended_sticky (fw : WatcherState) (env : FileEnv) (cu : Plan)
    (h : fw.needsUpdate = true) :
    CheckUpdate fw env cu = .ok ⟨true, fw, noEffects⟩ ∧
    (MonitorUpdate fw).needsUpdate = false := by
  constructor
  · simp [CheckUpdate, h]
  · simp [MonitorUpdate]

/-- Claim C4 amended, witness at a concrete armed state. -/
theorem C4_amended_sticky_witness :
    CheckUpdate ⟨⟨"a", "", 1⟩, 0, true, true, false⟩
        ⟨none, 0, none, none, .testMode⟩ ⟨"a", "", 1⟩ =
      .ok ⟨true, ⟨⟨"a", "", 1⟩, 0, true, true, false⟩, noEffects⟩ ∧
    (MonitorUpdate ⟨⟨"a", "", 1⟩, 0, true, true, false⟩).needsUpdate = false :=
  C4_amended_sticky _ _ _ rfl

/-- Claim C6: when the file exists, its modification time has advanced, and
its content fails to decode or fails plan validation (empty file, malformed
JSON, empty name, non-positive height), `CheckUpdate` aborts the process
instead of returning not-ready. -/
theorem C6_invalid_plan_panics (ci : Plan) (lmt : Int) (ini dr : Bool)
    (fl : Nat) (dec : Option Plan) (bins : Option (List String))
    (probe : ProbeOutcome) (mt : Int) (cu : Plan)
    (hmt : lmt < mt)
    (hbad : fl = 0 ∨ dec = none ∨
      ∃ p, dec = some p ∧ (p.name = "" ∨ p.height ≤ 0)) :
    isPanic (CheckUpdate ⟨ci, lmt, false, ini, dr⟩
      ⟨some mt, fl, dec, bins, probe⟩ cu) = true := by
  obtain ⟨e, he⟩ := parseUpgradeInfoFile_error_of_bad fl dec dr hbad
  simp [CheckUpdate, hmt, he, isPanic]

/-- Claim C6, witness: an empty file behind a fresh modification time makes
the call abort. -/
theorem C6_invalid_plan_panics_witness :
    isPanic (CheckUpdate ⟨⟨"a", "", 1⟩, 0, false, true, false⟩
      ⟨some 1, 0, none, none, .testMode⟩ ⟨"a", "", 1⟩) = true :=
  C6_invalid_plan_panics ⟨"a", "", 1⟩ 0 true false 0 none none .testMode 1
    ⟨"a", "", 1⟩ (by decide) (Or.inl rfl)

/-- Claim C1: post-initialization, with `needsUpdate = false`, the file
present with an advanced modification time, a valid decoded plan `p`, and the
height gate not applying: if `p`'s height strictly exceeds the accepted
plan's height, `CheckUpdate` adopts `p` (`currentInfo` and `lastModTime`
updated), sets `needsUpdate`, fires the height-reached callback and reports
ready; if `p`'s height is at most the accepted height it reports not-ready
and leaves the state (in particular `currentInfo`) untouched. -/
theorem C1_post_init_height_decision (ci : Plan) (lmt : Int) (dr : Bool)
    (fl : Nat) (dec : Option Plan) (bins : Option (List String))
    (probe : ProbeOutcome) (mt : Int) (cu p : Plan)
    (hmt : lmt < mt)
    (hparse : parseUpgradeInfoFile fl dec dr = .ok p)
    (hgate : ¬ ((checkHeight probe).1 ≠ 0 ∧ (checkHeight probe).1 < p.height)) :
    (ci.height < p.height →
      CheckUpdate ⟨ci, lmt, false, true, dr⟩ ⟨some mt, fl, dec, bins, probe⟩ cu =
        .ok ⟨true, ⟨p, mt, true, true, dr⟩,
          readEffects ⟨p.name, (extractFromBinaries bins).2,
            (extractFromBinaries bins).1, p.info, p.height⟩ true⟩) ∧
    (p.height ≤ ci.height →
      CheckUpdate ⟨ci, lmt, false, true, dr⟩ ⟨some mt, fl, dec, bins, probe⟩ cu =
        .ok ⟨false, ⟨ci, lmt, false, true, dr⟩,
          readEffects ⟨p.name, (extractFromBinaries bins).2,
            (extractFromBinaries bins).1, p.info, p.height⟩ false⟩) := by
  constructor
  · intro hh
    simp [CheckUpdate, hmt, hparse, hgate, hh, readEffects]
  · intro hh
    simp [CheckUpdate, hmt, hparse, hgate, not_lt.mpr hh, readEffects]

/-- Claim C1, witness: accepted height 5, new plan height 10 is adopted. -/
theorem C1_post_init_height_decision_witness :
    CheckUpdate ⟨⟨"a", "", 5⟩, 0, false, true, false⟩
        ⟨some 1, 1, some ⟨"b", "", 10⟩, none, .testMode⟩ ⟨"a", "", 5⟩ =
      .ok ⟨true, ⟨⟨"b", "", 10⟩, 1, true, true, false⟩,
        readEffects ⟨"b", "", "", "", 10⟩ true⟩ :=
  (C1_post_init_height_decision ⟨"a", "", 5⟩ 0 false 1 (some ⟨"b", "", 10⟩)
    none .testMode 1 ⟨"a", "", 5⟩ ⟨"b", "", 10⟩ (by decide) (by decide)
    (by decide)).1 (by decide)

/-- Claim C2: on the first successful poll (uninitialized state, file
present and fresh, valid plan `p`, height gate passed), `CheckUpdate`
compares `p`'s name case-insensitively with the currently-running upgrade
name: if they differ it sets `needsUpdate`, fires the height-reached
callback and reports ready; if they agree it reports not-ready on that same
first call. -/
theorem C2_first_poll_name_heuristic (ci : Plan) (lmt : Int) (dr : Bool)
    (fl : Nat) (dec : Option Plan) (bins : Option (List String))
    (probe : ProbeOutcome) (mt : Int) (cu p : Plan)
    (hmt : lmt < mt)
    (hparse : parseUpgradeInfoFile fl dec dr = .ok p)
    (hgate : ¬ ((checkHeight probe).1 ≠ 0 ∧ (checkHeight probe).1 < p.height)) :
    (EqualFold cu.name p.name = false →
      CheckUpdate ⟨ci, lmt, false, false, dr⟩ ⟨some mt, fl, dec, bins, probe⟩ cu =
        .ok ⟨true, ⟨p, mt, true, true, dr⟩,
          readEffects ⟨p.name, (extractFromBinaries bins).2,
            (extractFromBinaries bins).1, p.info, p.height⟩ true⟩) ∧
    (EqualFold cu.name p.name = true →
      checkRet (CheckUpdate ⟨ci, lmt, false, false, dr⟩
        ⟨some mt, fl, dec, bins, probe⟩ cu) = some false) := by
  constructor
  · intro hname
    simp [CheckUpdate, hmt, hparse, hgate, hname, readEffects]
  · intro hname
    simp [CheckUpdate, hmt, hparse, hgate, hname, checkRet]

/-- Claim C2, witness: a first poll seeing plan name `upgrade-a` while the
caller runs `Upgrade-B` reports ready with `needsUpdate` set. -/
theorem C2_first_poll_name_heuristic_witness :
    CheckUpdate ⟨⟨"", "", 0⟩, 0, false, false, false⟩
        ⟨some 1, 1, some ⟨"Upgrade-A", "", 100⟩, none, .testMode⟩
        ⟨"Upgrade-B", "", 100⟩ =
      .ok ⟨true, ⟨⟨"upgrade-a", "", 100⟩, 1, true, true, false⟩,
        readEffects ⟨"upgrade-a", "", "", "", 100⟩ true⟩ :=
  (C2_first_poll_name_heuristic ⟨"", "", 0⟩ 0 false 1
    (some ⟨"Upgrade-A", "", 100⟩) none .testMode 1 ⟨"Upgrade-B", "", 100⟩
    ⟨"upgrade-a", "", 100⟩ (by decide) (by decide) (by decide)).1 (by decide)

/-- Claim C9: on a first successful poll that passes the height gate but
whose plan name matches the currently-running name, `CheckUpdate` reports
not-ready and yet has already mutated the state: `initialized` becomes true
and `currentInfo` / `lastModTime` are overwritten with the decoded plan and
the file's modification time. -/
theorem C9_first_poll_frame_effect (ci : Plan) (lmt : Int) (dr : Bool)
    (fl : Nat) (dec : Option Plan) (bins : Option (List String))
    (probe : ProbeOutcome) (mt : Int) (cu p : Plan)
    (hmt : lmt < mt)
    (hparse : parseUpgradeInfoFile fl dec dr = .ok p)
    (hgate : ¬ ((checkHeight probe).1 ≠ 0 ∧ (checkHeight probe).1 < p.height))
    (hname : EqualFold cu.name p.name = true) :
    CheckUpdate ⟨ci, lmt, false, false, dr⟩ ⟨some mt, fl, dec, bins, probe⟩ cu =
      .ok ⟨false, ⟨p, mt, false, true, dr⟩,
        readEffects ⟨p.name, (extractFromBinaries bins).2,
          (extractFromBinaries bins).1, p.info, p.height⟩ false⟩ := by
  simp [CheckUpdate, hmt, hparse, hgate, hname, readEffects]

/-- Claim C9, witness: first poll with matching names (case-insensitively)
returns not-ready but initializes and overwrites the state. -/
theorem C9_first_poll_frame_effect_witness :
    CheckUpdate ⟨⟨"", "", 0⟩, 0, false, false, false⟩
        ⟨some 1, 1, some ⟨"Upgrade-A", "", 100⟩, none, .testMode⟩
        ⟨"upgrade-a", "", 100⟩ =
      .ok ⟨false, ⟨⟨"upgrade-a", "", 100⟩, 1, false, true, false⟩,
        readEffects ⟨"upgrade-a", "", "", "", 100⟩ false⟩ :=
  C9_first_poll_frame_effect ⟨"", "", 0⟩ 0 false 1
    (some ⟨"Upgrade-A", "", 100⟩) none .testMode 1 ⟨"upgrade-a", "", 100⟩
    ⟨"upgrade-a", "", 100⟩ (by decide) (by decide) (by decide) (by decide)

/-- Claim C5: when the probe reports a known height (non-zero) strictly below
the plan's target height, `CheckUpdate` reports not-ready regardless of
modification-time freshness; subprocess failure, JSON failure and an
empty/missing height field all yield height 0, which never blocks
acceptance. -/
theorem C5_height_gating (ci : Plan) (lmt : Int) (ini dr : Bool)
    (fl : Nat) (dec : Option Plan) (bins : Option (List String))
    (probe : ProbeOutcome) (mt : Int) (cu p : Plan)
    (hparse : parseUpgradeInfoFile fl dec dr = .ok p) :
    ((checkHeight probe).1 ≠ 0 → (checkHeight probe).1 < p.height →
      checkRet (CheckUpdate ⟨ci, lmt, false, ini, dr⟩
        ⟨some mt, fl, dec, bins, probe⟩ cu) = some false) ∧
    (probe = .execError ∨ probe = .jsonError ∨ probe = .output "" →
      (checkHeight probe).1 = 0) ∧
    ((checkHeight probe).1 = 0 →
      lmt < mt → ci.height < p.height →
      CheckUpdate ⟨ci, lmt, false, true, dr⟩ ⟨some mt, fl, dec, bins, probe⟩ cu =
        .ok ⟨true, ⟨p, mt, true, true, dr⟩,
          readEffects ⟨p.name, (extractFromBinaries bins).2,
            (extractFromBinaries bins).1, p.info, p.height⟩ true⟩) := by
  refine ⟨?_, ?_, ?_⟩
  · intro h1 h2
    by_cases hm : lmt < mt
    · simp [CheckUpdate, hm, hparse, h1, h2, checkRet]
    · simp [CheckUpdate, hm, checkRet]
  · rintro (h | h | h) <;> subst h <;> rfl
  · intro h0 hm hh
    simp [CheckUpdate, hm, hparse, h0, hh, readEffects]

/-- Claim C5, witness: probe height 50 against plan height 100 is not ready;
a failed probe does not block adopting a plan of height 100. -/
theorem C5_height_gating_witness :
    checkRet (CheckUpdate ⟨⟨"a", "", 5⟩, 0, false, true, false⟩
      ⟨some 1, 1, some ⟨"b", "", 100⟩, none, .output "50"⟩ ⟨"a", "", 5⟩) =
        some false ∧
    CheckUpdate ⟨⟨"a", "", 5⟩, 0, false, true, false⟩
        ⟨some 1, 1, some ⟨"b", "", 100⟩, none, .execError⟩ ⟨"a", "", 5⟩ =
      .ok ⟨true, ⟨⟨"b", "", 100⟩, 1, true, true, false⟩,
        readEffects ⟨"b", "", "", "", 100⟩ true⟩ :=
  ⟨(C5_height_gating ⟨"a", "", 5⟩ 0 true false 1 (some ⟨"b", "", 100⟩) none
      (.output "50") 1 ⟨"a", "", 5⟩ ⟨"b", "", 100⟩ (by decide)).1
      (by decide) (by decide),
   (C5_height_gating ⟨"a", "", 5⟩ 0 true false 1 (some ⟨"b", "", 100⟩) none
      .execError 1 ⟨"a", "", 5⟩ ⟨"b", "", 100⟩ (by decide)).2.2
      (by decide) (by decide) (by decide)⟩

/-- Claim C10: `lastModTime` is updated only when a plan is adopted.  A
post-initialization call that returns not-ready leaves the whole state (in
particular `lastModTime`) unchanged; concretely, both the height-gate
rejection and the non-exceeding-height rejection return not-ready with the
input state intact while still statting, reading, and firing the detected
callback — so the same unadopted plan is re-processed on every later tick. -/
theorem C10_lastModTime_only_on_adoption (ci : Plan) (lmt : Int) (ini dr : Bool)
    (fl : Nat) (dec : Option Plan) (bins : Option (List String))
    (probe : ProbeOutcome) (mt : Int) (cu p : Plan)
    (hparse : parseUpgradeInfoFile fl dec dr = .ok p) :
    (checkRet (CheckUpdate ⟨ci, lmt, false, true, dr⟩
        ⟨some mt, fl, dec, bins, probe⟩ cu) = some false →
      checkState (CheckUpdate ⟨ci, lmt, false, true, dr⟩
        ⟨some mt, fl, dec, bins, probe⟩ cu) = some ⟨ci, lmt, false, true, dr⟩) ∧
    (lmt < mt → (checkHeight probe).1 ≠ 0 → (checkHeight probe).1 < p.height →
      CheckUpdate ⟨ci, lmt, false, ini, dr⟩ ⟨some mt, fl, dec, bins, probe⟩ cu =
        .ok ⟨false, ⟨ci, lmt, false, ini, dr⟩,
          readEffects ⟨p.name, (extractFromBinaries bins).2,
            (extractFromBinaries bins).1, p.info, p.height⟩ false⟩) ∧
    (lmt < mt →
      ¬ ((checkHeight probe).1 ≠ 0 ∧ (checkHeight probe).1 < p.height) →
      p.height ≤ ci.height →
      CheckUpdate ⟨ci, lmt, false, true, dr⟩ ⟨some mt, fl, dec, bins, probe⟩ cu =
        .ok ⟨false, ⟨ci, lmt, false, true, dr⟩,
          readEffects ⟨p.name, (extractFromBinaries bins).2,
            (extractFromBinaries bins).1, p.info, p.height⟩ false⟩) := by
  refine ⟨?_, ?_, ?_⟩
  · by_cases hm : lmt < mt
    · by_cases hg : (checkHeight probe).1 ≠ 0 ∧ (checkHeight probe).1 < p.height
      · simp [CheckUpdate, hm, hparse, hg, checkRet, checkState]
      · by_cases hh : p.height > ci.height
        · simp [CheckUpdate, hm, hparse, hg, hh, checkRet, checkState]
        · simp [CheckUpdate, hm, hparse, hg, hh, checkRet, checkState]
    · simp [CheckUpdate, hm, checkRet, checkState]
  · intro hm h1 h2
    simp [CheckUpdate, hm, hparse, h1, h2, readEffects]
  · intro hm hg hh
    simp [CheckUpdate, hm, hparse, hg, not_lt.mpr hh, readEffects]

/-- Claim C10, witness: post-initialization, a modified file whose plan does
not exceed the accepted height is rejected with the state — including
`lastModTime` — unchanged, while the detected callback still fires. -/
theorem C10_lastModTime_only_on_adoption_witness :
    CheckUpdate ⟨⟨"a", "", 5⟩, 0, false, true, false⟩
        ⟨some 1, 1, some ⟨"b", "", 5⟩, none, .testMode⟩ ⟨"a", "", 5⟩ =
      .ok ⟨false, ⟨⟨"a", "", 5⟩, 0, false, true, false⟩,
        readEffects ⟨"b", "", "", "", 5⟩ false⟩ :=
  (C10_lastModTime_only_on_adoption ⟨"a", "", 5⟩ 0 true false 1
    (some ⟨"b", "", 5⟩) none .testMode 1 ⟨"a", "", 5⟩ ⟨"b", "", 5⟩
    (by decide)).2.2 (by decide) (by decide) (by decide)

/-- Claim C7: on the documented GitHub release URL the extractor returns the
repository prefix and the version tag; and for every URL containing no
segment case-insensitively equal to `github.com`, the returned repo is empty
even when a version segment matches. -/
theorem C7_extractor_repo_and_version :
    getVersionAndRepoFromUrl
        "https://github.com/org/repo/releases/download/v1.2.3/bin" =
      ("https://github.com/org/repo", "v1.2.3") ∧
    ∀ url : String, (∀ s ∈ goSplitSlash url, EqualFold s "github.com" = false) →
      (getVersionAndRepoFromUrl url).1 = "" := by
  constructor
  · decide
  · intro url h
    have hgi := urlLoop_githubIdx_const (goSplitSlash url) 0 (-1) "" h
    simp [getVersionAndRepoFromUrl, hgi]

/-- Claim C7, witness: a non-GitHub URL with a matching version segment
still reports an empty repo. -/
theorem C7_extractor_repo_and_version_witness :
    (getVersionAndRepoFromUrl "https://example.com/a/v1.2.3/bin").1 = "" :=
  C7_extractor_repo_and_version.2 "https://example.com/a/v1.2.3/bin" (by decide)

/-- Claim C8 counterexample: the claim accepts `digits.digits.digits`
without a leading `v`/`V` as a version, so on the URL `"1.2.3"` it predicts
version `"1.2.3"`; the code's regex `^[vV]\d+\.\d+\.\d+` requires the
leading letter and the extractor returns an empty version there. -/
theorem C8_counterexample :
    (getVersionAndRepoFromUrl "1.2.3").2 = "" ∧
    (getVersionAndRepoFromUrl "1.2.3").2 ≠ "1.2.3" := by
  exact ⟨by decide, by decide⟩

/-- Claim C8 amended: the extractor returns as version the first
slash-separated segment, in left-to-right scan order, matching "mandatory
`v` or `V`, then `digits.digits.digits`, then anything" and stops there;
any suffix after the three numeric groups is accepted, while a segment
without the leading `v`/`V` never matches. -/
theorem C8_amended_first_match :
    (∀ url : String, (getVersionAndRepoFromUrl url).2 =
      (((goSplitSlash url).find? versionRegexMatch).getD "")) ∧
    versionRegexMatch "1.2.3" = false ∧
    ∀ s : String, versionRegexMatch ("v1.2.3" ++ s) = true := by
  refine ⟨?_, by decide, ?_⟩
  · intro url
    simp [getVersionAndRepoFromUrl, urlLoop_version_eq_find (goSplitSlash url)]
  · intro s
    obtain ⟨cs⟩ := s
    rfl

/-- Claim C8 amended, witness: the first matching segment wins even with a
pre-release suffix, and an unprefixed numeric segment is skipped. -/
theorem C8_amended_first_match_witness :
    (getVersionAndRepoFromUrl "https://host/2.0.0/v1.5.0-rc1/v9.9.9").2 =
      "v1.5.0-rc1" :=
  Eq.trans (C8_amended_first_match.1 "https://host/2.0.0/v1.5.0-rc1/v9.9.9")
    (by decide)

end Cosmovisor
